import Mathlib

/-!
Shallow embedding of the consensus-critical parts of the witnet node:
the epoch clock (`EpochManager`), the RADON error taxonomy (`RadonErrors`),
the peer-consensus arbiter (`PeersBeacons::superblock_consensus`), the sync
engine batch splitter (`split_blocks_batch_at_target`) and the epoch-tick
handler of the `ChainManager` state machine.

Machine integers (`u8`, `u16`, `u32`, `u64`, `i64`, `usize`) are modelled as
`Nat`/`Int`; the claims under verification stay far from the overflow
boundaries, and every place where the Rust code can panic (asserts, underflow,
division by zero) is modelled explicitly as an `Option` whose `none` value
stands for the panic.
-/

namespace Witnet

/-- 32-byte SHA-256 digest (`witnet_data_structures::chain::Hash`), modelled by its
numeric value; the development only needs equality and ordering on digests. -/
structure Hash where
  val : Nat
deriving DecidableEq, Repr

instance : Inhabited Hash := ⟨⟨0⟩⟩

/-- `witnet_data_structures::chain::CheckpointBeacon`. -/
structure CheckpointBeacon where
  checkpoint : Nat
  hash_prev_block : Hash
deriving DecidableEq, Repr

instance : Inhabited CheckpointBeacon := ⟨⟨0, default⟩⟩

/-- `witnet_data_structures::types::LastBeacon`. -/
structure LastBeacon where
  highest_block_checkpoint : CheckpointBeacon
  highest_superblock_checkpoint : CheckpointBeacon
deriving DecidableEq, Repr

/- ===================== Epoch clock (core/src/actors/epoch_manager) ===================== -/

/-- `EpochManagerError` from `core/src/actors/epoch_manager/mod.rs`. -/
inductive EpochManagerError where
  | UnknownEpochZero
  | UnknownCheckpointPeriod
  | CheckpointZeroInTheFuture
  | Overflow
deriving DecidableEq, Repr

/-- The `EpochManager` actor state: `checkpoint_zero_timestamp: Option<i64>` and
`checkpoints_period: Option<u16>`. -/
structure EpochManager where
  checkpoint_zero_timestamp : Option Int
  checkpoints_period : Option Nat
deriving DecidableEq, Repr

/-- `EpochManager::set_checkpoint_zero`. -/
def set_checkpoint_zero (em : EpochManager) (timestamp : Int) : EpochManager :=
  { em with checkpoint_zero_timestamp := some timestamp }

/-- `EpochManager::set_period`: a period of 0 is replaced by the minimum value of 1. -/
def set_period (em : EpochManager) (period : Nat) : EpochManager :=
  { em with checkpoints_period := some (if period = 0 then 1 else period) }

/-- `EpochManager::epoch_at`.  The `none` result models the Rust panic caused by the
`u64` division when the stored period is zero (unreachable through `set_period`). -/
def epoch_at (em : EpochManager) (timestamp : Int) : Option (Except EpochManagerError Nat) :=
  match em.checkpoint_zero_timestamp, em.checkpoints_period with
  | some zero, some period =>
    let elapsed : Int := timestamp - zero
    if elapsed < 0 then
      some (Except.error EpochManagerError.CheckpointZeroInTheFuture)
    else if period = 0 then
      none
    else
      some (Except.ok (elapsed.toNat / period))
  | none, _ => some (Except.error EpochManagerError.UnknownEpochZero)
  | some _, none => some (Except.error EpochManagerError.UnknownCheckpointPeriod)

/-- The mutating calls an `EpochManager` can receive. -/
inductive EpochManagerOp where
  | setZero (ts : Int)
  | setPeriod (p : Nat)
deriving DecidableEq, Repr

/-- Apply one configuration call. -/
def applyEpochManagerOp (em : EpochManager) : EpochManagerOp → EpochManager
  | EpochManagerOp.setZero ts => set_checkpoint_zero em ts
  | EpochManagerOp.setPeriod p => set_period em p

/-- Run a sequence of configuration calls starting from the `Default` manager
(both fields unset). -/
def runEpochManagerOps (ops : List EpochManagerOp) : EpochManager :=
  ops.foldl applyEpochManagerOp { checkpoint_zero_timestamp := none, checkpoints_period := none }

/- ===================== RADON errors (data_structures/src/radon_error.rs) ===================== -/

/-- `RadonErrors` from `data_structures/src/radon_error.rs`. -/
inductive RadonErrors where
  | Unknown
  | SourceScriptNotCBOR
  | SourceScriptNotArray
  | SourceScriptNotRADON
  | RequestTooManySources
  | ScriptTooManyCalls
  | UnsupportedOperator
  | HTTPError
  | RetrieveTimeout
  | Underflow
  | Overflow
  | DivisionByZero
  | NoReveals
  | InsufficientConsensus
  | InsufficientCommits
  | TallyExecution
  | MalformedReveal
  | UnhandledIntercept
deriving DecidableEq, Repr

/-- The `IntoPrimitive` conversion given by the `#[repr(u8)]` discriminants. -/
def RadonErrors.toU8 : RadonErrors → Nat
  | RadonErrors.Unknown => 0x00
  | RadonErrors.SourceScriptNotCBOR => 0x01
  | RadonErrors.SourceScriptNotArray => 0x02
  | RadonErrors.SourceScriptNotRADON => 0x03
  | RadonErrors.RequestTooManySources => 0x10
  | RadonErrors.ScriptTooManyCalls => 0x11
  | RadonErrors.UnsupportedOperator => 0x20
  | RadonErrors.HTTPError => 0x30
  | RadonErrors.RetrieveTimeout => 0x31
  | RadonErrors.Underflow => 0x40
  | RadonErrors.Overflow => 0x41
  | RadonErrors.DivisionByZero => 0x42
  | RadonErrors.NoReveals => 0x50
  | RadonErrors.InsufficientConsensus => 0x51
  | RadonErrors.InsufficientCommits => 0x52
  | RadonErrors.TallyExecution => 0x53
  | RadonErrors.MalformedReveal => 0x60
  | RadonErrors.UnhandledIntercept => 0xFF

/-- The `TryFromPrimitive` conversion back from a `u8` code. -/
def RadonErrors.tryFromU8 : Nat → Option RadonErrors
  | 0x00 => some RadonErrors.Unknown
  | 0x01 => some RadonErrors.SourceScriptNotCBOR
  | 0x02 => some RadonErrors.SourceScriptNotArray
  | 0x03 => some RadonErrors.SourceScriptNotRADON
  | 0x10 => some RadonErrors.RequestTooManySources
  | 0x11 => some RadonErrors.ScriptTooManyCalls
  | 0x20 => some RadonErrors.UnsupportedOperator
  | 0x30 => some RadonErrors.HTTPError
  | 0x31 => some RadonErrors.RetrieveTimeout
  | 0x40 => some RadonErrors.Underflow
  | 0x41 => some RadonErrors.Overflow
  | 0x42 => some RadonErrors.DivisionByZero
  | 0x50 => some RadonErrors.NoReveals
  | 0x51 => some RadonErrors.InsufficientConsensus
  | 0x52 => some RadonErrors.InsufficientCommits
  | 0x53 => some RadonErrors.TallyExecution
  | 0x60 => some RadonErrors.MalformedReveal
  | 0xFF => some RadonErrors.UnhandledIntercept
  | _ => none

/- ============== Peer-consensus arbiter (node/src/actors/chain_manager/handlers.rs) ============== -/

/-- `PeersBeacons` message: one `Option<LastBeacon>` per outbound peer (peers are modelled
by a numeric identifier in place of `SocketAddr`), plus the configured outbound limit. -/
structure PeersBeacons where
  pb : List (Nat × Option LastBeacon)
  outbound_limit : Option Nat

/-- The number of occurrences of `x` in `l`. -/
def countOcc {α : Type} [DecidableEq α] (x : α) (l : List α) : Nat :=
  l.count x

/-- The number of occurrences of the most frequent element of `l`. -/
def maxCount {α : Type} [DecidableEq α] (l : List α) : Nat :=
  (l.map fun x => countOcc x l).foldr max 0

/-- Modelled from the spec: `mode_consensus` lives in the node crate `utils` module, which is
not among the sources; only its caller `PeersBeacons::superblock_consensus` is.  Following the
spec ("compute modal superblock beacon among all entries; if its count is at least
the ceiling of n times threshold over 100 it is the superblock consensus, else return None")
and the caller's case analysis (a call with threshold 0 can still fail, namely on a tie for
the most frequent element), it returns the unique most frequent element of the list provided
its multiplicity reaches the ceiling of `l.length * threshold / 100`, and `none` on a tie. -/
def modeConsensus {α : Type} [DecidableEq α] (l : List α) (threshold : Nat) : Option α :=
  match (l.filter fun x => decide (countOcc x l = maxCount l)).dedup with
  | [x] => if (l.length * threshold + 99) / 100 ≤ countOcc x l then some x else none
  | _ => none

/-- The superblock beacons reported by the peers, `None` for a silent peer, followed by
`numMissing` extra `None` entries (`chain(iter::repeat(None).take(num_missing_peers))`). -/
def paddedSuperblockEntries (s : PeersBeacons) (numMissing : Nat) :
    List (Option CheckpointBeacon) :=
  (s.pb.map fun p => p.2.map fun lb => lb.highest_superblock_checkpoint)
    ++ List.replicate numMissing none

/-- The block beacons of exactly those peers whose reported superblock beacon is `sc`
(the `filter_map` building `block_beacons` in `superblock_consensus`). -/
def blockBeaconsMatching (s : PeersBeacons) (sc : CheckpointBeacon) : List CheckpointBeacon :=
  s.pb.filterMap fun p => p.2.bind fun lb =>
    if lb.highest_superblock_checkpoint = sc then some lb.highest_block_checkpoint else none

/-- The block-consensus stage of `superblock_consensus`: case 1 is a modal block beacon
meeting the threshold, case 2 a modal block beacon among the matching peers regardless of
the threshold, case 3 (a tie) falls back to `block_beacons[0]`. -/
def blockStage (s : PeersBeacons) (threshold : Nat) (sc : CheckpointBeacon) :
    CheckpointBeacon × Bool :=
  match modeConsensus (blockBeaconsMatching s sc) threshold with
  | some x => (x, true)
  | none =>
    match modeConsensus (blockBeaconsMatching s sc) 0 with
    | some y => (y, false)
    | none => ((blockBeaconsMatching s sc).headD default, false)

/-- `superblock_consensus` after the `num_missing_peers` computation: mode over the padded
superblock entries, flattened (`and_then(|x| x)`), then the block stage. -/
def superblockConsensusWithMissing (s : PeersBeacons) (threshold numMissing : Nat) :
    Option (LastBeacon × Bool) :=
  match modeConsensus (paddedSuperblockEntries s numMissing) threshold with
  | some (some sc) =>
    let bs := blockStage s threshold sc
    some ({ highest_block_checkpoint := bs.1, highest_superblock_checkpoint := sc }, bs.2)
  | _ => none

/-- `PeersBeacons::superblock_consensus`.  The outer `none` models the Rust
`assert!(self.pb.len() <= outbound_limit)` panic; when the outbound limit is unset
`num_missing_peers` is 0. -/
def superblock_consensus (s : PeersBeacons) (threshold : Nat) :
    Option (Option (LastBeacon × Bool)) :=
  match s.outbound_limit with
  | some l =>
    if s.pb.length ≤ l then
      some (superblockConsensusWithMissing s threshold (l - s.pb.length))
    else
      none
  | none => some (superblockConsensusWithMissing s threshold 0)

/- ============== Sync engine batch splitter (node/src/actors/chain_manager/handlers.rs) ============== -/

/-- `BlockBatches<T>` from `chain_manager/handlers.rs`. -/
inductive BlockBatches (T : Type) where
  | TargetNotReached (blocks : List T)
  | SyncWithoutCandidate (consolidate remaining : List T)
  | SyncWithCandidate (consolidate candidate remaining : List T)
deriving DecidableEq, Repr

/-- The only `ChainManagerError` variant produced by `split_blocks_batch_at_target`. -/
inductive ChainManagerError where
  | WrongBlocksForSuperblock
      (wrong_index consolidated_superblock_index current_superblock_index : Nat)
deriving DecidableEq, Repr

/-- `SyncTarget` from the chain manager. -/
structure SyncTarget where
  block : CheckpointBeacon
  superblock : CheckpointBeacon
deriving DecidableEq, Repr

/-- The part of `split_blocks_batch_at_target` after the reverted-chain check: the
`TargetNotReached` guard (`last_epoch` is 0 for an empty batch, and the subtraction is the
Rust `saturating_sub`), then the even/odd split into consolidated, candidate and remaining
batches.  A `position` of the first element satisfying a predicate followed by `split_off`
is exactly a `takeWhile`/`dropWhile` pair on the negated predicate.  `csi` is
`current_epoch / superblock_period`. -/
def splitBlocksTail {T : Type} (key : T → Nat) (blocks : List T) (csi : Nat)
    (sync_target : SyncTarget) (superblock_period : Nat) :
    Except ChainManagerError (BlockBatches T) :=
  if (blocks.getLast?.map key).getD 0
        < sync_target.superblock.checkpoint * superblock_period - 1 ∧
      (blocks.getLast?.map key).getD 0 < sync_target.block.checkpoint then
    Except.ok (BlockBatches.TargetNotReached blocks)
  else if (csi - sync_target.superblock.checkpoint) % 2 = 0 then
    Except.ok (BlockBatches.SyncWithoutCandidate
      (blocks.takeWhile fun b =>
        decide (key b < sync_target.superblock.checkpoint * superblock_period))
      (blocks.dropWhile fun b =>
        decide (key b < sync_target.superblock.checkpoint * superblock_period)))
  else
    Except.ok (BlockBatches.SyncWithCandidate
      (blocks.takeWhile fun b =>
        decide (key b < sync_target.superblock.checkpoint * superblock_period))
      ((blocks.dropWhile fun b =>
          decide (key b < sync_target.superblock.checkpoint * superblock_period)).takeWhile
        fun b => decide (key b < csi * superblock_period))
      ((blocks.dropWhile fun b =>
          decide (key b < sync_target.superblock.checkpoint * superblock_period)).dropWhile
        fun b => decide (key b < csi * superblock_period)))

/-- Body of `split_blocks_batch_at_target` after the `assert!` and the superblock index
division: the reverted-chain check looks for the first block whose epoch falls in
`[target·period, first_valid_block)` where
`first_valid_block = (csi - (csi - target) % 2) * period`; sync target 0 is excluded from
this validation. -/
def splitBlocksBody {T : Type} (key : T → Nat) (blocks : List T) (csi : Nat)
    (sync_target : SyncTarget) (superblock_period : Nat) :
    Except ChainManagerError (BlockBatches T) :=
  match blocks.find? fun b =>
      decide (sync_target.superblock.checkpoint * superblock_period ≤ key b) &&
        decide (key b
          < (csi - (csi - sync_target.superblock.checkpoint) % 2) * superblock_period) with
  | some b =>
    if sync_target.superblock.checkpoint ≠ 0 then
      Except.error (ChainManagerError.WrongBlocksForSuperblock (key b)
        sync_target.superblock.checkpoint csi)
    else
      splitBlocksTail key blocks csi sync_target superblock_period
  | none => splitBlocksTail key blocks csi sync_target superblock_period

/-- `split_blocks_batch_at_target`.  The `none` result models the two Rust panics: the
division by a zero `superblock_period` and the `assert!` rejecting a sync target lying in
the future of the current superblock index. -/
def split_blocks_batch_at_target {T : Type} (key : T → Nat) (blocks : List T)
    (current_epoch : Nat) (sync_target : SyncTarget) (superblock_period : Nat) :
    Option (Except ChainManagerError (BlockBatches T)) :=
  if superblock_period = 0 then
    none
  else
    let current_superblock_index := current_epoch / superblock_period
    if current_superblock_index < sync_target.superblock.checkpoint then
      none
    else
      some (splitBlocksBody key blocks current_superblock_index sync_target superblock_period)

/- ============== ChainManager epoch-tick handler (node/src/actors/chain_manager/handlers.rs) ============== -/

/-- The `StateMachine` of the chain manager. -/
inductive StateMachine where
  | WaitingConsensus
  | Synchronizing
  | AlmostSynced
  | Synced
deriving DecidableEq, Repr

/-- The fields of the `ChainManager` actor read or written by the
`EpochNotification<EveryEpochPayload>` handler that are relevant to consensus state.
Candidate blocks and the best candidate are tracked by identifier; the presence of the
reputation engine, epoch constants, VRF context and secp engine is tracked by a flag. -/
structure ChainManagerSt where
  current_epoch : Option Nat
  sm_state : StateMachine
  peers_beacons_received : Bool
  candidates : List Nat
  seen_candidates : List Nat
  best_candidate : Option Nat
  has_reputation_engine : Bool
  has_epoch_constants : Bool
  has_vrf_ctx : Bool
  has_secp : Bool
deriving DecidableEq, Repr

/-- Modelled from the spec: `ChainManager::update_state_machine` lives in
`chain_manager/mod.rs`, which is not among the sources; only its callers are.  Per the
spec state diagram it moves the state machine to the given state. -/
def update_state_machine (st : ChainManagerSt) (next : StateMachine) : ChainManagerSt :=
  { st with sm_state := next }

/-- The state-field effects of `Handler<EpochNotification<EveryEpochPayload>>` for
`ChainManager`, in source order: remember the previous epoch, store the new one, force
`WaitingConsensus` and clear the candidate sets when no peer beacons arrived, force
`WaitingConsensus` on an epoch gap (`msg.checkpoint - last_checked_epoch != 1`; the `u32`
subtraction is modelled by truncated `Nat` subtraction, which selects the same branch for
every non-successor checkpoint), reset `peers_beacons_received`, then in `AlmostSynced` or
`Synced` state consolidate (take) the best candidate and clear the candidate sets.
Message broadcasts, mining, superblock construction and the transaction pool are external
effects not tracked by this state record. -/
def handleEpochNotification (st : ChainManagerSt) (checkpoint : Nat) : ChainManagerSt :=
  let last_checked_epoch := st.current_epoch
  let st1 := { st with current_epoch := some checkpoint }
  let st2 :=
    if st1.peers_beacons_received = false then
      { update_state_machine st1 StateMachine.WaitingConsensus with
        candidates := [], seen_candidates := [] }
    else
      st1
  let st3 :=
    match last_checked_epoch with
    | some l =>
      if checkpoint - l ≠ 1 then update_state_machine st2 StateMachine.WaitingConsensus else st2
    | none => st2
  let st4 := { st3 with peers_beacons_received := false }
  let st5 :=
    match st4.sm_state with
    | StateMachine.WaitingConsensus => st4
    | StateMachine.Synchronizing => st4
    | StateMachine.AlmostSynced | StateMachine.Synced =>
      if st4.has_reputation_engine then
        if st4.has_epoch_constants = false ∨ st4.has_vrf_ctx = false ∨ st4.has_secp = false then
          st4
        else
          { st4 with best_candidate := none, candidates := [], seen_candidates := [] }
      else
        st4
  { st5 with peers_beacons_received := false }

/- =============================== Concrete inputs =============================== -/

/-- The beacon `B1` of spec scenario S1 (block checkpoint 1, superblock checkpoint 0). -/
def c1Beacon : LastBeacon :=
  { highest_block_checkpoint := ⟨1, ⟨0⟩⟩, highest_superblock_checkpoint := ⟨0, ⟨1⟩⟩ }

/-- Spec scenario S1: two peers reporting `B1`, outbound limit 4. -/
def c1Input : PeersBeacons := ⟨[(1, some c1Beacon), (2, some c1Beacon)], some 4⟩

/-- A block beacon with a large hash. -/
def c2BlockA : CheckpointBeacon := ⟨1, ⟨9⟩⟩

/-- A block beacon with a small hash. -/
def c2BlockB : CheckpointBeacon := ⟨1, ⟨1⟩⟩

/-- A shared superblock beacon. -/
def c2Super : CheckpointBeacon := ⟨5, ⟨0⟩⟩

/-- Two peers agreeing on the superblock beacon but tied between two block beacons, the
first-listed one having the larger hash. -/
def c2Cex : PeersBeacons :=
  ⟨[(1, some ⟨c2BlockA, c2Super⟩), (2, some ⟨c2BlockB, c2Super⟩)], some 2⟩

/-- Four peers agreeing on the superblock beacon, three of them on block beacon
`c2BlockA` (spec scenario S2 shape). -/
def c2Wit : PeersBeacons :=
  ⟨[(1, some ⟨c2BlockA, c2Super⟩), (2, some ⟨c2BlockA, c2Super⟩),
    (3, some ⟨c2BlockA, c2Super⟩), (4, some ⟨c2BlockB, c2Super⟩)], some 4⟩

/-- Three peers observed under an outbound limit of 2: the assert fires. -/
def c9Cex : PeersBeacons := ⟨[(1, none), (2, none), (3, none)], some 2⟩

/-- Sync target of spec scenario S4: superblock checkpoint 2. -/
def c3Target : SyncTarget := ⟨⟨0, ⟨0⟩⟩, ⟨2, ⟨0⟩⟩⟩

/-- Sync target of spec scenario S5: superblock checkpoint 3. -/
def c4Target : SyncTarget := ⟨⟨0, ⟨0⟩⟩, ⟨3, ⟨0⟩⟩⟩

/-- A zero sync target (superblock checkpoint 0). -/
def c4ZeroTarget : SyncTarget := ⟨⟨0, ⟨0⟩⟩, ⟨0, ⟨0⟩⟩⟩

/-- A sync target with nonzero superblock checkpoint but zero block checkpoint. -/
def c5Target : SyncTarget := ⟨⟨0, ⟨0⟩⟩, ⟨1, ⟨0⟩⟩⟩

/-- Sync target of spec scenario S3: superblock checkpoint 10, block checkpoint 99. -/
def c5WitTarget : SyncTarget := ⟨⟨99, ⟨0⟩⟩, ⟨10, ⟨0⟩⟩⟩

/-- A `Synced` chain manager at epoch 5 holding candidates, with peer beacons received. -/
def c8Cex : ChainManagerSt :=
  { current_epoch := some 5, sm_state := StateMachine.Synced, peers_beacons_received := true,
    candidates := [7], seen_candidates := [8], best_candidate := some 9,
    has_reputation_engine := true, has_epoch_constants := true,
    has_vrf_ctx := true, has_secp := true }

/-- A `Synced` chain manager at epoch 5 holding candidates, with no peer beacons received. -/
def c8Wit : ChainManagerSt :=
  { current_epoch := some 5, sm_state := StateMachine.Synced, peers_beacons_received := false,
    candidates := [7], seen_candidates := [8], best_candidate := some 9,
    has_reputation_engine := true, has_epoch_constants := true,
    has_vrf_ctx := true, has_secp := true }

/- =============================== Helper lemmas =============================== -/

theorem headD_mem {α : Type} [Inhabited α] {l : List α} (h : l ≠ []) :
    l.headD default ∈ l := by
  cases l with
  | nil => exact absurd rfl h
  | cons a t => exact List.mem_cons_self a t

/-- A successful `modeConsensus` result is an element of the list whose multiplicity is
maximal and reaches the ceiling of `l.length * t / 100`. -/
theorem modeConsensus_eq_some {α : Type} [DecidableEq α] {l : List α} {t : Nat} {x : α}
    (h : modeConsensus l t = some x) :
    x ∈ l ∧ countOcc x l = maxCount l ∧ (l.length * t + 99) / 100 ≤ countOcc x l := by
  unfold modeConsensus at h
  split at h
  next y hdd =>
    split at h
    next hth =>
      have hxy : y = x := by injection h
      have hx : y ∈ (l.filter fun z => decide (countOcc z l = maxCount l)).dedup := by
        rw [hdd]
        exact List.mem_singleton.mpr rfl
      rw [List.mem_dedup, List.mem_filter] at hx
      rw [← hxy]
      exact ⟨hx.1, of_decide_eq_true hx.2, hth⟩
    next => exact absurd h (by simp)
  next => exact absurd h (by simp)

/-- If the padded superblock entries have a modal real beacon, at least one peer reported
it, so the matching block-beacon list is nonempty. -/
theorem blockBeaconsMatching_ne_nil {s : PeersBeacons} {nm t : Nat} {sc : CheckpointBeacon}
    (h : modeConsensus (paddedSuperblockEntries s nm) t = some (some sc)) :
    blockBeaconsMatching s sc ≠ [] := by
  have hmem := (modeConsensus_eq_some h).1
  unfold paddedSuperblockEntries at hmem
  rcases List.mem_append.mp hmem with hmem | hmem
  · rcases List.mem_map.mp hmem with ⟨⟨pid, ob⟩, hp, hob⟩
    cases ob with
    | none => simp at hob
    | some lb =>
      have hsb : lb.highest_superblock_checkpoint = sc := by simpa using hob
      intro hnil
      have hb : lb.highest_block_checkpoint ∈ blockBeaconsMatching s sc := by
        unfold blockBeaconsMatching
        refine List.mem_filterMap.mpr ⟨(pid, some lb), hp, ?_⟩
        simp [hsb]
      rw [hnil] at hb
      exact absurd hb (List.not_mem_nil _)
  · have := List.eq_of_mem_replicate hmem
    exact absurd this (by simp)

/-- Full case analysis of the block-consensus stage. -/
theorem blockStage_spec (s : PeersBeacons) (t : Nat) (sc : CheckpointBeacon)
    (hbb : blockBeaconsMatching s sc ≠ []) :
    (blockStage s t sc).1 ∈ blockBeaconsMatching s sc ∧
    ((blockStage s t sc).2 = true ↔
      modeConsensus (blockBeaconsMatching s sc) t = some (blockStage s t sc).1) ∧
    (modeConsensus (blockBeaconsMatching s sc) t = none →
      modeConsensus (blockBeaconsMatching s sc) 0 = none →
      (blockStage s t sc).2 = false ∧
        (blockStage s t sc).1 = (blockBeaconsMatching s sc).headD default) ∧
    (∀ y, modeConsensus (blockBeaconsMatching s sc) t = none →
      modeConsensus (blockBeaconsMatching s sc) 0 = some y →
      (blockStage s t sc).2 = false ∧ (blockStage s t sc).1 = y) := by
  cases hm : modeConsensus (blockBeaconsMatching s sc) t with
  | some x =>
    have hmem := (modeConsensus_eq_some hm).1
    refine ⟨?_, ?_, ?_, ?_⟩
    · simpa only [blockStage, hm] using hmem
    · simp [blockStage, hm]
    · intro h2 h3
      exact Option.noConfusion h2
    · intro y2 h2 h3
      exact Option.noConfusion h2
  | none =>
    cases hm0 : modeConsensus (blockBeaconsMatching s sc) 0 with
    | some y =>
      have hmem := (modeConsensus_eq_some hm0).1
      refine ⟨?_, ?_, ?_, ?_⟩
      · simpa only [blockStage, hm, hm0] using hmem
      · simp [blockStage, hm, hm0]
      · intro _ h3
        exact Option.noConfusion h3
      · intro y2 _ h3
        have hyy : y = y2 := by injection h3
        simp [blockStage, hm, hm0, hyy]
    | none =>
      refine ⟨?_, ?_, ?_, ?_⟩
      · simpa only [blockStage, hm, hm0] using headD_mem hbb
      · simp [blockStage, hm, hm0]
      · intro _ _
        simp [blockStage, hm, hm0]
      · intro y2 _ h3
        exact Option.noConfusion h3

/-- Inversion of a successful `superblockConsensusWithMissing`. -/
theorem superblockConsensusWithMissing_eq_some {s : PeersBeacons} {t nm : Nat}
    {lb : LastBeacon} {strong : Bool}
    (h : superblockConsensusWithMissing s t nm = some (lb, strong)) :
    modeConsensus (paddedSuperblockEntries s nm) t
      = some (some lb.highest_superblock_checkpoint) ∧
    lb.highest_block_checkpoint = (blockStage s t lb.highest_superblock_checkpoint).1 ∧
    strong = (blockStage s t lb.highest_superblock_checkpoint).2 := by
  unfold superblockConsensusWithMissing at h
  split at h
  · rename_i sc heq
    injection h with h2
    injection h2 with ha hb
    subst ha
    subst hb
    exact ⟨heq, rfl, rfl⟩
  · exact absurd h (by simp)

/-- A successful `superblock_consensus` factors through `superblockConsensusWithMissing`
for some number of padded entries. -/
theorem superblock_consensus_eq_some {s : PeersBeacons} {t : Nat} {r : Option (LastBeacon × Bool)}
    (h : superblock_consensus s t = some r) :
    ∃ nm, superblockConsensusWithMissing s t nm = r := by
  unfold superblock_consensus at h
  cases hob : s.outbound_limit with
  | none =>
    rw [hob] at h
    exact ⟨0, by injection h⟩
  | some L =>
    rw [hob] at h
    change (if s.pb.length ≤ L then
        some (superblockConsensusWithMissing s t (L - s.pb.length)) else none) = some r at h
    by_cases hl : s.pb.length ≤ L
    · rw [if_pos hl] at h
      exact ⟨L - s.pb.length, by injection h⟩
    · rw [if_neg hl] at h
      exact absurd h (by simp)

/- =============================== Theorems: epoch clock =============================== -/

/-- C6: for a fully configured epoch clock with a positive period (the data model demands
`period_seconds ≥ 1`, and `set_period` enforces it), `epoch_at t` returns the epoch
`(t - zero) / period` (floor division) when `t ≥ zero`, the `CheckpointZeroInTheFuture`
error when `t < zero`, and the corresponding missing-configuration error when either
configuration value is unset. -/
theorem epoch_at_spec (zero : Int) (period : Nat) (t : Int) (hp : 1 ≤ period) :
    (zero ≤ t →
      epoch_at ⟨some zero, some period⟩ t = some (Except.ok ((t - zero).toNat / period))) ∧
    (t < zero →
      epoch_at ⟨some zero, some period⟩ t
        = some (Except.error EpochManagerError.CheckpointZeroInTheFuture)) ∧
    (∀ p, epoch_at ⟨none, p⟩ t = some (Except.error EpochManagerError.UnknownEpochZero)) ∧
    epoch_at ⟨some zero, none⟩ t
      = some (Except.error EpochManagerError.UnknownCheckpointPeriod) := by
  refine ⟨?_, ?_, fun p => rfl, rfl⟩
  · intro hz
    simp only [epoch_at]
    rw [if_neg (by omega), if_neg (by omega)]
  · intro hz
    simp only [epoch_at]
    rw [if_pos (by omega)]

/-- Witness for `epoch_at_spec` at `zero = 10`, `period = 45`, `t = 100`. -/
theorem epoch_at_spec_witness :
    (1 : Nat) ≤ 45 ∧
    (((10 : Int) ≤ 100 →
      epoch_at ⟨some 10, some 45⟩ 100 = some (Except.ok 2)) ∧
    ((100 : Int) < 10 →
      epoch_at ⟨some 10, some 45⟩ 100
        = some (Except.error EpochManagerError.CheckpointZeroInTheFuture)) ∧
    (∀ p, epoch_at ⟨none, p⟩ (100 : Int)
        = some (Except.error EpochManagerError.UnknownEpochZero)) ∧
    epoch_at ⟨some 10, none⟩ (100 : Int)
      = some (Except.error EpochManagerError.UnknownCheckpointPeriod)) :=
  ⟨by decide, epoch_at_spec 10 45 100 (by decide)⟩

/-- C10: `set_period 0` stores the minimum period 1, and after any sequence of
`set_checkpoint_zero`/`set_period` calls starting from the default manager the stored
`checkpoints_period` is never zero, so `epoch_at` never reaches its division-by-zero
panic (the `none` result). -/
theorem set_period_zero_stores_one (em : EpochManager) (ops : List EpochManagerOp) (t : Int) :
    set_period em 0 = { em with checkpoints_period := some 1 } ∧
    (runEpochManagerOps ops).checkpoints_period ≠ some 0 ∧
    epoch_at (runEpochManagerOps ops) t ≠ none := by
  have key : ∀ (l : List EpochManagerOp) (st : EpochManager),
      st.checkpoints_period ≠ some 0 →
      (l.foldl applyEpochManagerOp st).checkpoints_period ≠ some 0 := by
    intro l
    induction l with
    | nil => intro st h; exact h
    | cons op rest ih =>
      intro st h
      refine ih _ ?_
      cases op with
      | setZero ts => simpa [applyEpochManagerOp, set_checkpoint_zero] using h
      | setPeriod p =>
        by_cases hp : p = 0 <;> simp [applyEpochManagerOp, set_period, hp]
  have hper : (runEpochManagerOps ops).checkpoints_period ≠ some 0 :=
    key ops _ (by simp)
  refine ⟨rfl, hper, ?_⟩
  simp only [epoch_at]
  cases hz : (runEpochManagerOps ops).checkpoint_zero_timestamp with
  | none => simp
  | some z =>
    cases hpp : (runEpochManagerOps ops).checkpoints_period with
    | none => simp
    | some p =>
      have hp0 : p ≠ 0 := by
        rw [hpp] at hper
        simpa using hper
      show (if t - z < 0 then some (Except.error EpochManagerError.CheckpointZeroInTheFuture)
          else if p = 0 then none
          else some (Except.ok ((t - z).toNat / p))) ≠ none
      rw [if_neg hp0]
      split_ifs <;> simp

/-- Witness for `set_period_zero_stores_one` on the call sequence
`[set_period 0, set_checkpoint_zero 7]`. -/
theorem set_period_zero_stores_one_witness :
    set_period { checkpoint_zero_timestamp := none, checkpoints_period := none } 0
      = { checkpoint_zero_timestamp := none, checkpoints_period := some 1 } ∧
    (runEpochManagerOps
        [EpochManagerOp.setPeriod 0, EpochManagerOp.setZero 7]).checkpoints_period
      ≠ some 0 ∧
    epoch_at (runEpochManagerOps
        [EpochManagerOp.setPeriod 0, EpochManagerOp.setZero 7]) 9 ≠ none :=
  set_period_zero_stores_one
    { checkpoint_zero_timestamp := none, checkpoints_period := none }
    [EpochManagerOp.setPeriod 0, EpochManagerOp.setZero 7] 9

/- =============================== Theorems: RADON errors =============================== -/

/-- C7: the `RadonErrors` enumeration carries exactly the consensus-critical codes listed
by the spec, and converting each variant to its `u8` code and back is the identity. -/
theorem radon_errors_fixed_codes :
    RadonErrors.Unknown.toU8 = 0x00 ∧
    RadonErrors.SourceScriptNotCBOR.toU8 = 0x01 ∧
    RadonErrors.SourceScriptNotArray.toU8 = 0x02 ∧
    RadonErrors.SourceScriptNotRADON.toU8 = 0x03 ∧
    RadonErrors.RequestTooManySources.toU8 = 0x10 ∧
    RadonErrors.ScriptTooManyCalls.toU8 = 0x11 ∧
    RadonErrors.UnsupportedOperator.toU8 = 0x20 ∧
    RadonErrors.HTTPError.toU8 = 0x30 ∧
    RadonErrors.RetrieveTimeout.toU8 = 0x31 ∧
    RadonErrors.Underflow.toU8 = 0x40 ∧
    RadonErrors.Overflow.toU8 = 0x41 ∧
    RadonErrors.DivisionByZero.toU8 = 0x42 ∧
    RadonErrors.NoReveals.toU8 = 0x50 ∧
    RadonErrors.InsufficientConsensus.toU8 = 0x51 ∧
    RadonErrors.InsufficientCommits.toU8 = 0x52 ∧
    RadonErrors.TallyExecution.toU8 = 0x53 ∧
    RadonErrors.MalformedReveal.toU8 = 0x60 ∧
    RadonErrors.UnhandledIntercept.toU8 = 0xFF ∧
    ∀ e : RadonErrors, RadonErrors.tryFromU8 e.toU8 = some e := by
  refine ⟨rfl, rfl, rfl, rfl, rfl, rfl, rfl, rfl, rfl, rfl, rfl, rfl, rfl, rfl, rfl, rfl,
    rfl, rfl, ?_⟩
  intro e
  cases e <;> rfl

/- ========================== Theorems: epoch-tick state machine ========================== -/

/-- C8 (amended): an epoch notification whose checkpoint is not the successor of the
previously seen one always moves the state machine to `WaitingConsensus`; the candidate
and seen-candidate sets are cleared exactly when no peer beacons were received since the
previous epoch, and the best candidate is never dropped by the gap itself. -/
theorem epoch_gap_forces_waiting_consensus (st : ChainManagerSt) (checkpoint l : Nat)
    (hl : st.current_epoch = some l) (hgap : checkpoint - l ≠ 1) :
    (handleEpochNotification st checkpoint).sm_state = StateMachine.WaitingConsensus ∧
    (handleEpochNotification st checkpoint).best_candidate = st.best_candidate ∧
    (handleEpochNotification st checkpoint).candidates
      = (if st.peers_beacons_received = false then [] else st.candidates) ∧
    (handleEpochNotification st checkpoint).seen_candidates
      = (if st.peers_beacons_received = false then [] else st.seen_candidates) := by
  unfold handleEpochNotification update_state_machine
  rw [hl]
  by_cases hb : st.peers_beacons_received = false <;>
    simp [hb, hgap]

/-- Witness for `epoch_gap_forces_waiting_consensus`: a `Synced` manager at epoch 5 with
no beacons received, notified of epoch 9. -/
theorem epoch_gap_forces_waiting_consensus_witness :
    c8Wit.current_epoch = some 5 ∧ (9 : Nat) - 5 ≠ 1 ∧
    ((handleEpochNotification c8Wit 9).sm_state = StateMachine.WaitingConsensus ∧
    (handleEpochNotification c8Wit 9).best_candidate = c8Wit.best_candidate ∧
    (handleEpochNotification c8Wit 9).candidates
      = (if c8Wit.peers_beacons_received = false then [] else c8Wit.candidates) ∧
    (handleEpochNotification c8Wit 9).seen_candidates
      = (if c8Wit.peers_beacons_received = false then [] else c8Wit.seen_candidates)) :=
  ⟨rfl, by decide, epoch_gap_forces_waiting_consensus c8Wit 9 5 rfl (by decide)⟩

/-- C8 counterexample: a `Synced` manager at epoch 5 that did receive peer beacons, on a
gapped notification of epoch 7, moves to `WaitingConsensus` but keeps its candidate set,
seen-candidate set and best candidate, contradicting "the best candidate and
seen-candidate sets are dropped". -/
theorem epoch_gap_keeps_candidates_cex :
    c8Cex.current_epoch = some 5 ∧ (7 : Nat) - 5 ≠ 1 ∧
    (handleEpochNotification c8Cex 7).sm_state = StateMachine.WaitingConsensus ∧
    (handleEpochNotification c8Cex 7).candidates = [7] ∧
    (handleEpochNotification c8Cex 7).seen_candidates = [8] ∧
    (handleEpochNotification c8Cex 7).best_candidate = some 9 :=
  ⟨rfl, by decide, rfl, rfl, rfl, rfl⟩

/- ========================== Theorems: peer-consensus arbiter ========================== -/

/-- C1: with outbound limit `L` and at most `L` observed beacons, the superblock stage of
`superblock_consensus` works on the observed entries padded with `L - |pb|` no-beacon
entries (a list of length exactly `L`), any returned superblock beacon occurs at least
`⌈L·t/100⌉` times among those padded entries, and on spec scenario S1 (two of four peers
reporting `B1`, threshold 60) the result is no consensus. -/
theorem superblock_consensus_pads_and_thresholds (s : PeersBeacons) (L t : Nat)
    (hL : s.outbound_limit = some L) (hlen : s.pb.length ≤ L) :
    (paddedSuperblockEntries s (L - s.pb.length)).length = L ∧
    (∀ lb strong, superblock_consensus s t = some (some (lb, strong)) →
      (L * t + 99) / 100 ≤
        countOcc (some lb.highest_superblock_checkpoint)
          (paddedSuperblockEntries s (L - s.pb.length))) ∧
    superblock_consensus c1Input 60 = some none := by
  have hplen : (paddedSuperblockEntries s (L - s.pb.length)).length = L := by
    unfold paddedSuperblockEntries
    rw [List.length_append, List.length_map, List.length_replicate]
    omega
  refine ⟨hplen, ?_, rfl⟩
  intro lb strong h
  unfold superblock_consensus at h
  rw [hL] at h
  change (if s.pb.length ≤ L then
      some (superblockConsensusWithMissing s t (L - s.pb.length)) else none)
    = some (some (lb, strong)) at h
  rw [if_pos hlen] at h
  have hw : superblockConsensusWithMissing s t (L - s.pb.length) = some (lb, strong) := by
    injection h
  obtain ⟨h1, -, -⟩ := superblockConsensusWithMissing_eq_some hw
  obtain ⟨-, h2, h3⟩ := modeConsensus_eq_some h1
  rw [hplen] at h3
  exact h3

/-- Witness for `superblock_consensus_pads_and_thresholds` at the S1 input itself. -/
theorem superblock_consensus_pads_and_thresholds_witness :
    c1Input.outbound_limit = some 4 ∧ c1Input.pb.length ≤ 4 ∧
    ((paddedSuperblockEntries c1Input (4 - c1Input.pb.length)).length = 4 ∧
    (∀ lb strong, superblock_consensus c1Input 60 = some (some (lb, strong)) →
      (4 * 60 + 99) / 100 ≤
        countOcc (some lb.highest_superblock_checkpoint)
          (paddedSuperblockEntries c1Input (4 - c1Input.pb.length))) ∧
    superblock_consensus c1Input 60 = some none) :=
  ⟨rfl, by decide, superblock_consensus_pads_and_thresholds c1Input 4 60 rfl (by decide)⟩

/-- C2 (amended): whenever `superblock_consensus` reaches a superblock consensus, the
returned block beacon is one reported by a peer agreeing on that superblock; the strong
flag is set exactly when the modal block beacon among those peers meets the threshold;
otherwise the modal block beacon regardless of threshold is returned with a `false` flag,
and on a tie for the mode the block beacon of the first such peer in the input order is
returned (not the one with the smallest hash). -/
theorem superblock_consensus_block_stage (s : PeersBeacons) (t : Nat)
    (lb : LastBeacon) (strong : Bool)
    (h : superblock_consensus s t = some (some (lb, strong))) :
    lb.highest_block_checkpoint ∈ blockBeaconsMatching s lb.highest_superblock_checkpoint ∧
    (strong = true ↔
      modeConsensus (blockBeaconsMatching s lb.highest_superblock_checkpoint) t
        = some lb.highest_block_checkpoint) ∧
    (modeConsensus (blockBeaconsMatching s lb.highest_superblock_checkpoint) t = none →
      modeConsensus (blockBeaconsMatching s lb.highest_superblock_checkpoint) 0 = none →
      strong = false ∧ lb.highest_block_checkpoint
        = (blockBeaconsMatching s lb.highest_superblock_checkpoint).headD default) ∧
    (∀ y, modeConsensus (blockBeaconsMatching s lb.highest_superblock_checkpoint) t = none →
      modeConsensus (blockBeaconsMatching s lb.highest_superblock_checkpoint) 0 = some y →
      strong = false ∧ lb.highest_block_checkpoint = y) := by
  obtain ⟨nm, hw⟩ := superblock_consensus_eq_some h
  obtain ⟨h1, h2, h3⟩ := superblockConsensusWithMissing_eq_some hw
  have hbb := blockBeaconsMatching_ne_nil h1
  obtain ⟨m1, m2, m3, m4⟩ := blockStage_spec s t lb.highest_superblock_checkpoint hbb
  rw [← h2] at m1 m2 m3 m4
  rw [← h3] at m2 m3 m4
  exact ⟨m1, m2, fun ha hb => ⟨(m3 ha hb).1, (m3 ha hb).2⟩, m4⟩

/-- Witness for `superblock_consensus_block_stage`: four peers on one superblock, three
agreeing on block beacon `c2BlockA` (spec scenario S2 shape), threshold 60. -/
theorem superblock_consensus_block_stage_witness :
    superblock_consensus c2Wit 60
      = some (some ({ highest_block_checkpoint := c2BlockA,
                      highest_superblock_checkpoint := c2Super }, true)) ∧
    (c2BlockA ∈ blockBeaconsMatching c2Wit c2Super ∧
    (true = true ↔
      modeConsensus (blockBeaconsMatching c2Wit c2Super) 60 = some c2BlockA) ∧
    (modeConsensus (blockBeaconsMatching c2Wit c2Super) 60 = none →
      modeConsensus (blockBeaconsMatching c2Wit c2Super) 0 = none →
      true = false ∧ c2BlockA = (blockBeaconsMatching c2Wit c2Super).headD default) ∧
    (∀ y, modeConsensus (blockBeaconsMatching c2Wit c2Super) 60 = none →
      modeConsensus (blockBeaconsMatching c2Wit c2Super) 0 = some y →
      true = false ∧ c2BlockA = y)) :=
  ⟨rfl, superblock_consensus_block_stage c2Wit 60
    { highest_block_checkpoint := c2BlockA, highest_superblock_checkpoint := c2Super }
    true rfl⟩

/-- C2 counterexample: two peers agree on the superblock beacon but report tied block
beacons; the code returns the first-listed block beacon `c2BlockA` although the other
tied candidate `c2BlockB` has a strictly smaller hash, so the tie-break is not "smallest
hash". -/
theorem superblock_consensus_tie_not_smallest_hash_cex :
    superblock_consensus c2Cex 60
      = some (some ({ highest_block_checkpoint := c2BlockA,
                      highest_superblock_checkpoint := c2Super }, false)) ∧
    c2BlockB ∈ blockBeaconsMatching c2Cex c2Super ∧
    c2BlockB.hash_prev_block.val < c2BlockA.hash_prev_block.val :=
  ⟨rfl, by decide, by decide⟩

/-- C9: with outbound limit `L`, `superblock_consensus` hits its `assert!` panic exactly
when more than `L` beacons were observed; under the precondition `|pb| ≤ L` it always
returns a value. -/
theorem superblock_consensus_assert_totality (s : PeersBeacons) (L t : Nat)
    (hL : s.outbound_limit = some L) :
    (L < s.pb.length → superblock_consensus s t = none) ∧
    (s.pb.length ≤ L → (superblock_consensus s t).isSome = true) := by
  unfold superblock_consensus
  rw [hL]
  constructor
  · intro hlt
    change (if s.pb.length ≤ L then
        some (superblockConsensusWithMissing s t (L - s.pb.length)) else none) = none
    rw [if_neg (by omega)]
  · intro hle
    change (if s.pb.length ≤ L then
        some (superblockConsensusWithMissing s t (L - s.pb.length)) else none).isSome = true
    rw [if_pos hle]
    rfl

/-- Witness for `superblock_consensus_assert_totality`: three observed beacons under an
outbound limit of 2 make the assert fire. -/
theorem superblock_consensus_assert_totality_witness :
    c9Cex.outbound_limit = some 2 ∧
    ((2 < c9Cex.pb.length → superblock_consensus c9Cex 60 = none) ∧
    (c9Cex.pb.length ≤ 2 → (superblock_consensus c9Cex 60).isSome = true)) :=
  ⟨rfl, superblock_consensus_assert_totality c9Cex 2 60 rfl⟩

/- ========================== Theorems: sync engine batch splitter ========================== -/

theorem filter_eq_nil_of_none {T : Type} (p : T → Bool) :
    ∀ l : List T, (∀ a ∈ l, p a = false) → l.filter p = []
  | [], _ => rfl
  | a :: tl, h => by
    rw [List.filter_cons, h a (List.mem_cons_self a tl), if_neg (by simp)]
    exact filter_eq_nil_of_none p tl fun b hb => h b (List.mem_cons_of_mem a hb)

theorem filter_eq_self_of_all {T : Type} (p : T → Bool) :
    ∀ l : List T, (∀ a ∈ l, p a = true) → l.filter p = l
  | [], _ => rfl
  | a :: tl, h => by
    rw [List.filter_cons, h a (List.mem_cons_self a tl), if_pos rfl]
    rw [filter_eq_self_of_all p tl fun b hb => h b (List.mem_cons_of_mem a hb)]

/-- On a batch sorted by ascending key, taking the prefix of keys below `c` is the same as
filtering for keys below `c`. -/
theorem takeWhile_lt_eq_filter {T : Type} (key : T → Nat) (c : Nat) :
    ∀ l : List T, l.Pairwise (fun a b => key a ≤ key b) →
      (l.takeWhile fun b => decide (key b < c)) = l.filter fun b => decide (key b < c)
  | [], _ => rfl
  | a :: tl, hp => by
    obtain ⟨ha, htl⟩ := List.pairwise_cons.mp hp
    by_cases hc : key a < c
    · rw [List.takeWhile_cons, List.filter_cons, decide_eq_true hc, if_pos rfl, if_pos rfl]
      rw [takeWhile_lt_eq_filter key c tl htl]
    · rw [List.takeWhile_cons, List.filter_cons, decide_eq_false hc,
        if_neg (by simp), if_neg (by simp)]
      exact (filter_eq_nil_of_none _ tl fun b hb =>
        decide_eq_false fun hbc => hc (Nat.lt_of_le_of_lt (ha b hb) hbc)).symm

/-- On a batch sorted by ascending key, dropping the prefix of keys below `c` is the same
as filtering for keys at least `c`. -/
theorem dropWhile_lt_eq_filter {T : Type} (key : T → Nat) (c : Nat) :
    ∀ l : List T, l.Pairwise (fun a b => key a ≤ key b) →
      (l.dropWhile fun b => decide (key b < c)) = l.filter fun b => decide (c ≤ key b)
  | [], _ => rfl
  | a :: tl, hp => by
    obtain ⟨ha, htl⟩ := List.pairwise_cons.mp hp
    by_cases hc : key a < c
    · rw [List.dropWhile_cons, List.filter_cons, decide_eq_true hc,
        decide_eq_false (Nat.not_le.mpr hc), if_pos rfl, if_neg (by simp)]
      exact dropWhile_lt_eq_filter key c tl htl
    · have hcle : c ≤ key a := Nat.le_of_not_lt hc
      rw [List.dropWhile_cons, List.filter_cons, decide_eq_false hc,
        decide_eq_true hcle, if_neg (by simp), if_pos rfl]
      rw [filter_eq_self_of_all _ tl fun b hb =>
        decide_eq_true (Nat.le_trans hcle (ha b hb))]

theorem filter_filter_and {T : Type} (p q : T → Bool) :
    ∀ l : List T, (l.filter p).filter q = l.filter fun a => p a && q a
  | [] => rfl
  | a :: tl => by
    cases hp : p a <;> cases hq : q a <;>
      simp [List.filter_cons, hp, hq, filter_filter_and p q tl]

theorem filter_absorb {T : Type} (p q : T → Bool) (himp : ∀ a, q a = true → p a = true) :
    ∀ l : List T, (l.filter p).filter q = l.filter q
  | [] => rfl
  | a :: tl => by
    cases hq : q a
    · cases hp : p a <;>
        simp [List.filter_cons, hp, hq, filter_absorb p q himp tl]
    · have hp := himp a hq
      simp [List.filter_cons, hp, hq, filter_absorb p q himp tl]

/-- C3 (amended): on a batch sorted by ascending epoch that reaches the sync target
(the `TargetNotReached` guard fails), contains no block in the reverted window, and for
which the difference between the current superblock index and the target superblock
checkpoint is odd, the splitter returns `SyncWithCandidate` whose consolidation part holds
the blocks with epoch below `target·period`, whose candidate part holds the blocks from
there up to `(current_epoch/period)·period`, and whose remaining part holds the rest. -/
theorem split_sync_with_candidate {T : Type} (key : T → Nat) (blocks : List T)
    (current_epoch : Nat) (sync_target : SyncTarget) (superblock_period : Nat)
    (hper : superblock_period ≠ 0)
    (hcsi : sync_target.superblock.checkpoint ≤ current_epoch / superblock_period)
    (hodd : (current_epoch / superblock_period - sync_target.superblock.checkpoint) % 2 = 1)
    (hsorted : blocks.Pairwise fun a b => key a ≤ key b)
    (hclean : ∀ b ∈ blocks, sync_target.superblock.checkpoint * superblock_period ≤ key b →
      (current_epoch / superblock_period -
        (current_epoch / superblock_period - sync_target.superblock.checkpoint) % 2) *
          superblock_period ≤ key b)
    (hreach : ¬((blocks.getLast?.map key).getD 0
          < sync_target.superblock.checkpoint * superblock_period - 1 ∧
        (blocks.getLast?.map key).getD 0 < sync_target.block.checkpoint)) :
    split_blocks_batch_at_target key blocks current_epoch sync_target superblock_period
      = some (Except.ok (BlockBatches.SyncWithCandidate
          (blocks.filter fun b =>
            decide (key b < sync_target.superblock.checkpoint * superblock_period))
          (blocks.filter fun b =>
            decide (sync_target.superblock.checkpoint * superblock_period ≤ key b) &&
              decide (key b < current_epoch / superblock_period * superblock_period))
          (blocks.filter fun b =>
            decide (current_epoch / superblock_period * superblock_period ≤ key b)))) := by
  unfold split_blocks_batch_at_target
  rw [if_neg hper, if_neg (Nat.not_lt.mpr hcsi)]
  refine congrArg some ?_
  have hfind : (blocks.find? fun b =>
      decide (sync_target.superblock.checkpoint * superblock_period ≤ key b) &&
        decide (key b < (current_epoch / superblock_period -
          (current_epoch / superblock_period - sync_target.superblock.checkpoint) % 2) *
            superblock_period)) = none := by
    rw [List.find?_eq_none]
    intro b hb
    simp only [Bool.and_eq_true, decide_eq_true_eq, not_and]
    intro h1
    exact Nat.not_lt.mpr (hclean b hb h1)
  unfold splitBlocksBody
  rw [hfind]
  show splitBlocksTail key blocks (current_epoch / superblock_period) sync_target
      superblock_period = _
  unfold splitBlocksTail
  rw [if_neg hreach, if_neg (by omega)]
  have e1 := takeWhile_lt_eq_filter key
    (sync_target.superblock.checkpoint * superblock_period) blocks hsorted
  have e2 := dropWhile_lt_eq_filter key
    (sync_target.superblock.checkpoint * superblock_period) blocks hsorted
  have hfsorted : (blocks.filter fun b =>
      decide (sync_target.superblock.checkpoint * superblock_period ≤ key b)).Pairwise
        fun a b => key a ≤ key b :=
    List.Pairwise.sublist (List.filter_sublist blocks) hsorted
  have e3 := takeWhile_lt_eq_filter key
    (current_epoch / superblock_period * superblock_period)
    (blocks.filter fun b =>
      decide (sync_target.superblock.checkpoint * superblock_period ≤ key b)) hfsorted
  have e4 := dropWhile_lt_eq_filter key
    (current_epoch / superblock_period * superblock_period)
    (blocks.filter fun b =>
      decide (sync_target.superblock.checkpoint * superblock_period ≤ key b)) hfsorted
  rw [e1, e2, e3, e4, filter_filter_and]
  rw [filter_absorb _ _ fun a hqa => decide_eq_true
    (Nat.le_trans (Nat.mul_le_mul_right superblock_period hcsi) (of_decide_eq_true hqa))]

/-- Witness for `split_sync_with_candidate`: spec scenario S4
(`sync_target.superblock = 2`, `current_epoch = 111`, `period = 10`, blocks `[105, 110]`)
gives `SyncWithCandidate([], [105], [110])`. -/
theorem split_sync_with_candidate_witness :
    split_blocks_batch_at_target (fun b => b) [105, 110] 111 c3Target 10
      = some (Except.ok (BlockBatches.SyncWithCandidate [] [105] [110])) :=
  split_sync_with_candidate (fun b => b) [105, 110] 111 c3Target 10
    (by decide) (by decide) (by decide) (by decide) (by decide) (by decide)

/-- C3 counterexample: on the unsorted batch `[110, 105]` (same target, epoch and period
as scenario S4) the splitter returns `SyncWithCandidate([], [], [110, 105])`, although the
claims description would put block 105 — whose epoch lies in `[20, 110)` — into the
candidate part. -/
theorem split_sync_with_candidate_unsorted_cex :
    split_blocks_batch_at_target (fun b => b) [110, 105] 111 c3Target 10
      = some (Except.ok (BlockBatches.SyncWithCandidate [] [] [110, 105])) ∧
    ([110, 105].filter fun b =>
      decide (c3Target.superblock.checkpoint * 10 ≤ b) && decide (b < 111 / 10 * 10))
        = [105] ∧
    ([] : List Nat) ≠ [105] :=
  ⟨rfl, rfl, by decide⟩

/-- C4 (amended): when the target superblock checkpoint is nonzero (sync target 0 is
excluded from this validation) and some block of the batch has an epoch in
`[target·period, first_valid_block)`, the splitter fails with `WrongBlocksForSuperblock`
carrying the epoch of the first such block, the target superblock checkpoint and the
current superblock index `current_epoch / period`. -/
theorem split_wrong_blocks_reverted {T : Type} (key : T → Nat) (blocks : List T)
    (current_epoch : Nat) (sync_target : SyncTarget) (superblock_period : Nat)
    (hper : superblock_period ≠ 0)
    (hcsi : sync_target.superblock.checkpoint ≤ current_epoch / superblock_period)
    (hct : sync_target.superblock.checkpoint ≠ 0)
    (hwrong : ∃ b ∈ blocks,
      sync_target.superblock.checkpoint * superblock_period ≤ key b ∧
      key b < (current_epoch / superblock_period -
        (current_epoch / superblock_period - sync_target.superblock.checkpoint) % 2) *
          superblock_period) :
    ∃ b0 ∈ blocks,
      (sync_target.superblock.checkpoint * superblock_period ≤ key b0 ∧
        key b0 < (current_epoch / superblock_period -
          (current_epoch / superblock_period - sync_target.superblock.checkpoint) % 2) *
            superblock_period) ∧
      split_blocks_batch_at_target key blocks current_epoch sync_target superblock_period
        = some (Except.error (ChainManagerError.WrongBlocksForSuperblock (key b0)
            sync_target.superblock.checkpoint (current_epoch / superblock_period))) := by
  cases hfind : blocks.find? fun b =>
      decide (sync_target.superblock.checkpoint * superblock_period ≤ key b) &&
        decide (key b < (current_epoch / superblock_period -
          (current_epoch / superblock_period - sync_target.superblock.checkpoint) % 2) *
            superblock_period) with
  | none =>
    exfalso
    obtain ⟨b, hb, h1, h2⟩ := hwrong
    have hnb := List.find?_eq_none.mp hfind b hb
    simp only [Bool.and_eq_true, decide_eq_true_eq, not_and] at hnb
    exact absurd h2 (hnb h1)
  | some b0 =>
    have hb0mem := List.mem_of_find?_eq_some hfind
    have hb0p := List.find?_some hfind
    simp only [Bool.and_eq_true, decide_eq_true_eq] at hb0p
    refine ⟨b0, hb0mem, hb0p, ?_⟩
    unfold split_blocks_batch_at_target
    rw [if_neg hper, if_neg (Nat.not_lt.mpr hcsi)]
    refine congrArg some ?_
    unfold splitBlocksBody
    rw [hfind]
    show (if sync_target.superblock.checkpoint ≠ 0 then
        Except.error (ChainManagerError.WrongBlocksForSuperblock (key b0)
          sync_target.superblock.checkpoint (current_epoch / superblock_period))
      else splitBlocksTail key blocks (current_epoch / superblock_period) sync_target
        superblock_period) = _
    rw [if_pos hct]

/-- Witness for `split_wrong_blocks_reverted`: spec scenario S5
(`sync_target.superblock = 3`, `current_epoch = 101`, `period = 10`, blocks `[70, 100]`)
fails with `WrongBlocksForSuperblock{70, 3, 10}`. -/
theorem split_wrong_blocks_reverted_witness :
    ∃ b0 ∈ [70, 100],
      ((c4Target.superblock.checkpoint * 10 ≤ b0 ∧
        b0 < (101 / 10 - (101 / 10 - c4Target.superblock.checkpoint) % 2) * 10) ∧
      split_blocks_batch_at_target (fun b => b) [70, 100] 101 c4Target 10
        = some (Except.error (ChainManagerError.WrongBlocksForSuperblock b0
            c4Target.superblock.checkpoint (101 / 10)))) :=
  split_wrong_blocks_reverted (fun b => b) [70, 100] 101 c4Target 10
    (by decide) (by decide) (by decide) ⟨70, by decide, by decide⟩

/-- C4 counterexample: with a zero sync target, block 5 of the batch `[5]` at
`current_epoch = 25`, `period = 10` lies in the window `[0, first_valid_block) = [0, 20)`,
yet the splitter does not fail — it returns `SyncWithoutCandidate([], [5])` — because
sync target 0 is excluded from the reverted-chain validation. -/
theorem split_wrong_blocks_zero_target_cex :
    (c4ZeroTarget.superblock.checkpoint * 10 ≤ 5 ∧
      5 < (25 / 10 - (25 / 10 - c4ZeroTarget.superblock.checkpoint) % 2) * 10) ∧
    split_blocks_batch_at_target (fun b => b) [5] 25 c4ZeroTarget 10
      = some (Except.ok (BlockBatches.SyncWithoutCandidate [] [5])) ∧
    ∀ e : ChainManagerError,
      split_blocks_batch_at_target (fun b => b) [5] 25 c4ZeroTarget 10
        ≠ some (Except.error e) :=
  ⟨by decide, rfl, fun e h => Except.noConfusion (Option.some.inj h)⟩

/-- C5 (amended): for a sync target whose superblock window start is at least 2
(`target·period ≥ 2`) and whose block checkpoint is nonzero, with a consistent current
superblock index, the splitter on an empty batch returns `TargetNotReached([])`. -/
theorem split_empty_batch_target_not_reached {T : Type} (key : T → Nat)
    (current_epoch : Nat) (sync_target : SyncTarget) (superblock_period : Nat)
    (hper : superblock_period ≠ 0)
    (hcsi : sync_target.superblock.checkpoint ≤ current_epoch / superblock_period)
    (hct2 : 2 ≤ sync_target.superblock.checkpoint * superblock_period)
    (hbk : 1 ≤ sync_target.block.checkpoint) :
    split_blocks_batch_at_target key ([] : List T) current_epoch sync_target superblock_period
      = some (Except.ok (BlockBatches.TargetNotReached [])) := by
  unfold split_blocks_batch_at_target
  rw [if_neg hper, if_neg (Nat.not_lt.mpr hcsi)]
  refine congrArg some ?_
  unfold splitBlocksBody
  show splitBlocksTail key ([] : List T) (current_epoch / superblock_period) sync_target
      superblock_period = _
  unfold splitBlocksTail
  have hcond : ((([] : List T).getLast?.map key).getD 0
        < sync_target.superblock.checkpoint * superblock_period - 1 ∧
      (([] : List T).getLast?.map key).getD 0 < sync_target.block.checkpoint) := by
    constructor
    · show (0 : Nat) < sync_target.superblock.checkpoint * superblock_period - 1
      omega
    · show (0 : Nat) < sync_target.block.checkpoint
      omega
  rw [if_pos hcond]

/-- Witness for `split_empty_batch_target_not_reached`: the scenario S3 target
(superblock 10, block 99) at `current_epoch = 101`, `period = 10`. -/
theorem split_empty_batch_target_not_reached_witness :
    split_blocks_batch_at_target (fun b : Nat => b) [] 101 c5WitTarget 10
      = some (Except.ok (BlockBatches.TargetNotReached [])) :=
  split_empty_batch_target_not_reached (fun b => b) 101 c5WitTarget 10
    (by decide) (by decide) (by decide) (by decide)

/-- C5 counterexample: the sync target with superblock checkpoint 1 but block checkpoint 0
at `current_epoch = 10`, `period = 10` makes the splitter return
`SyncWithoutCandidate([], [])` on an empty batch, not `TargetNotReached([])`. -/
theorem split_empty_batch_cex :
    c5Target.superblock.checkpoint ≠ 0 ∧
    split_blocks_batch_at_target (fun b : Nat => b) [] 10 c5Target 10
      = some (Except.ok (BlockBatches.SyncWithoutCandidate [] [])) ∧
    split_blocks_batch_at_target (fun b : Nat => b) [] 10 c5Target 10
      ≠ some (Except.ok (BlockBatches.TargetNotReached [])) :=
  ⟨by decide, rfl,
    fun h => BlockBatches.noConfusion (Except.ok.inj (Option.some.inj h))⟩

end Witnet


